import Mathlib

/-
Verification of the image-resource core of dxvk-async
(src/src/dxvk/dxvk_image.h): a shallow embedding of DxvkImage and
DxvkImageView together with theorems about their operations.

Machine integers (uint32_t) are modelled as Nat with an explicit
reduction modulo 2^32 at the operations where C++ unsigned wraparound
can occur (the successor test and the counter increment in
setRtBindingFrameId, and the mip-level offset addition in the view).
Vulkan enumeration values are modelled as the Nat values assigned to
them by the Vulkan headers.
-/

set_option autoImplicit false

namespace Dxvk

/-- Width of the uint32_t machine integers used throughout the header. -/
def U32 : Nat := 2 ^ 32

/-- Vulkan image layout, as its numeric enumeration value. -/
abbrev VkImageLayout := Nat

/-- Numeric value of the layout VK_IMAGE_LAYOUT_GENERAL in the Vulkan headers. -/
def VK_IMAGE_LAYOUT_GENERAL : VkImageLayout := 1

/-- Vulkan pixel format, as its numeric enumeration value. -/
abbrev VkFormat := Nat

/-- Vulkan aspect-mask bitfield. -/
abbrev VkImageAspectFlags := Nat

/-- Native image handle; VK_NULL_HANDLE is 0. -/
abbrev VkImage := Nat

/-- Native image-view handle; VK_NULL_HANDLE is 0. -/
abbrev VkImageView := Nat

/-- Three-component image extent (width, height, depth), in texels. -/
structure VkExtent3D where
  width : Nat
  height : Nat
  depth : Nat
  deriving DecidableEq, Repr

/-- Per-channel component swizzle of an image view. -/
structure VkComponentMapping where
  r : Nat
  g : Nat
  b : Nat
  a : Nat
  deriving DecidableEq, Repr

/-- Numeric value of VK_COMPONENT_SWIZZLE_IDENTITY. -/
def VK_COMPONENT_SWIZZLE_IDENTITY : Nat := 0

/-- Subresource-layers descriptor: one mip level across a layer range. -/
structure VkImageSubresourceLayers where
  aspectMask : VkImageAspectFlags
  mipLevel : Nat
  baseArrayLayer : Nat
  layerCount : Nat
  deriving DecidableEq, Repr

/-- Subresource-range descriptor returned by DxvkImageView::subresources. -/
structure VkImageSubresourceRange where
  aspectMask : VkImageAspectFlags
  baseMipLevel : Nat
  levelCount : Nat
  baseArrayLayer : Nat
  layerCount : Nat
  deriving DecidableEq, Repr

/-- Modelled from the spec: dxvk_format.h is not under src/, so the
format-metadata record is modelled from spec section 6, which requires
only that the registry return format metadata including the full aspect
mask used by isFullSubresource. -/
structure DxvkFormatInfo where
  aspectMask : VkImageAspectFlags
  deriving DecidableEq, Repr

/-- Modelled from the spec: the free function imageFormatInfo lives in
dxvk_format.h, outside src/; it is modelled as an arbitrary read-only
registry mapping a pixel format to its metadata, passed explicitly to
the operations that consult it. -/
abbrev FormatRegistry := VkFormat → DxvkFormatInfo

/-- Image create info (struct DxvkImageCreateInfo of dxvk_image.h).
The viewFormats pointer plus viewFormatCount pair is modelled as a
list. -/
structure DxvkImageCreateInfo where
  type : Nat
  format : VkFormat
  flags : Nat
  sampleCount : Nat
  extent : VkExtent3D
  numLayers : Nat
  mipLevels : Nat
  usage : Nat
  stages : Nat
  access : Nat
  tiling : Nat
  layout : VkImageLayout
  viewFormats : List VkFormat := []
  deriving DecidableEq, Repr

/-- Image view create info (struct DxvkImageViewCreateInfo of
dxvk_image.h), with the default member values of the source. -/
structure DxvkImageViewCreateInfo where
  type : Nat := 1
  format : VkFormat := 0
  usage : Nat := 0
  aspect : VkImageAspectFlags := 0
  minLevel : Nat := 0
  numLevels : Nat := 0
  minLayer : Nat := 0
  numLayers : Nat := 0
  swizzle : VkComponentMapping :=
    { r := VK_COMPONENT_SWIZZLE_IDENTITY, g := VK_COMPONENT_SWIZZLE_IDENTITY,
      b := VK_COMPONENT_SWIZZLE_IDENTITY, a := VK_COMPONENT_SWIZZLE_IDENTITY }
  deriving DecidableEq, Repr

/-- State of a DxvkImage: the private fields of class DxvkImage.
The driver function table m_vkd is an external collaborator carrying no
state relevant here and is modelled as Unit; the bound memory region
m_memory is modelled as an abstract block identifier. The field m_owned
is modelled from the spec: the constructor bodies and the destructor
body live in dxvk_image.cpp, outside src/, and spec sections 3 and 4.1
describe the instance as marked owning or non-owning at construction. -/
structure DxvkImage where
  m_vkd : Unit := ()
  m_info : DxvkImageCreateInfo
  m_memFlags : Nat := 0
  m_memory : Nat := 0
  m_image : VkImage := 0
  m_viewFormats : List VkFormat := []
  m_owned : Bool := true
  deriving DecidableEq, Repr

namespace DxvkImage

/-- DxvkImage::info. -/
def info (img : DxvkImage) : DxvkImageCreateInfo :=
  img.m_info

/-- DxvkImage::handle. -/
def handle (img : DxvkImage) : VkImage :=
  img.m_image

/-- DxvkImage::formatInfo, which calls imageFormatInfo(m_info.format);
the registry is passed explicitly because it is an external
collaborator. -/
def formatInfo (reg : FormatRegistry) (img : DxvkImage) : DxvkFormatInfo :=
  reg img.m_info.format

/-- DxvkImage::mipLevelExtent: each axis is max(1, base >> level),
computed independently for width, height and depth. -/
def mipLevelExtent (img : DxvkImage) (level : Nat) : VkExtent3D :=
  { width := max 1 (img.m_info.extent.width >>> level),
    height := max 1 (img.m_info.extent.height >>> level),
    depth := max 1 (img.m_info.extent.depth >>> level) }

/-- DxvkImage::pickLayout. -/
def pickLayout (img : DxvkImage) (layout : VkImageLayout) : VkImageLayout :=
  if img.m_info.layout = VK_IMAGE_LAYOUT_GENERAL
    then VK_IMAGE_LAYOUT_GENERAL else layout

/-- DxvkImage::isFullSubresource. -/
def isFullSubresource (reg : FormatRegistry) (img : DxvkImage)
    (subresource : VkImageSubresourceLayers) (extent : VkExtent3D) : Bool :=
  decide (subresource.aspectMask = (img.formatInfo reg).aspectMask)
    && decide (extent = img.mipLevelExtent subresource.mipLevel)

/-- Modelled from the spec: the wrapping constructor
DxvkImage(vkd, info, image) is implemented in dxvk_image.cpp, outside
src/; spec section 4.1 says it records the externally supplied handle
without taking ownership of it or of any memory, so destruction skips
native teardown. -/
def wrap (vkd : Unit) (info : DxvkImageCreateInfo) (image : VkImage) : DxvkImage :=
  { m_vkd := vkd, m_info := info, m_memFlags := 0, m_memory := 0,
    m_image := image, m_viewFormats := info.viewFormats, m_owned := false }

/-- Observable teardown effects of running the DxvkImage destructor:
whether the native image handle was destroyed and whether the bound
memory block was returned to the allocator. -/
structure DtorEffects where
  destroyedNativeHandle : Bool
  freedMemoryBlock : Bool
  deriving DecidableEq, Repr

/-- Modelled from the spec: the destructor body of DxvkImage lives in
dxvk_image.cpp, outside src/; spec section 4.1 says destruction
releases the native handle and returns the memory block to the
allocator only if owning, and is a no-op otherwise. -/
def destroy (img : DxvkImage) : DtorEffects :=
  if img.m_owned
    then { destroyedNativeHandle := true, freedMemoryBlock := true }
    else { destroyedNativeHandle := false, freedMemoryBlock := false }

end DxvkImage

/-- Number of slots in the view-handle cache of DxvkImageView:
VK_IMAGE_VIEW_TYPE_CUBE_ARRAY + 1 = 7. -/
def ViewCount : Nat := 7

/-- State of a DxvkImageView: the private fields of class
DxvkImageView. The strong reference m_image is embedded by value, the
fixed handle table m_views is a function on Fin ViewCount, and the two
frame-tracking counters are uint32_t fields whose member initializers
in the header set both to 0. -/
structure DxvkImageView where
  m_vkd : Unit := ()
  m_image : DxvkImage
  m_info : DxvkImageViewCreateInfo
  m_views : Fin ViewCount → VkImageView
  m_rtBindingFrameId : Nat := 0
  m_rtBindingFrameCount : Nat := 0

namespace DxvkImageView

/-- Modelled from the spec: the constructor body of DxvkImageView lives
in dxvk_image.cpp, outside src/. Spec section 3 says the view stores a
copy of its create-info and shares ownership of the parent image, and
the member initializers at lines 419-420 of the header (which are under
src/) set both frame-tracking counters to 0. The handle table is
populated by createView calls outside src/ and no claim depends on its
contents, so it starts empty here. -/
def construct (vkd : Unit) (image : DxvkImage)
    (info : DxvkImageViewCreateInfo) : DxvkImageView :=
  { m_vkd := vkd, m_image := image, m_info := info,
    m_views := fun _ => 0,
    m_rtBindingFrameId := 0, m_rtBindingFrameCount := 0 }

/-- DxvkImageView::info. -/
def info (v : DxvkImageView) : DxvkImageViewCreateInfo :=
  v.m_info

/-- DxvkImageView::handle(viewType). -/
def handle (v : DxvkImageView) (viewType : Fin ViewCount) : VkImageView :=
  v.m_views viewType

/-- DxvkImageView::mipLevelExtent: delegates to the parent image at
level + m_info.minLevel; the uint32_t addition wraps modulo 2^32. -/
def mipLevelExtent (v : DxvkImageView) (level : Nat) : VkExtent3D :=
  v.m_image.mipLevelExtent ((level + v.m_info.minLevel) % U32)

/-- DxvkImageView::subresources. -/
def subresources (v : DxvkImageView) : VkImageSubresourceRange :=
  { aspectMask := v.m_info.aspect,
    baseMipLevel := v.m_info.minLevel,
    levelCount := v.m_info.numLevels,
    baseArrayLayer := v.m_info.minLayer,
    layerCount := v.m_info.numLayers }

/-- DxvkImageView::pickLayout. -/
def pickLayout (v : DxvkImageView) (layout : VkImageLayout) : VkImageLayout :=
  v.m_image.pickLayout layout

/-- DxvkImageView::setRtBindingFrameId. Both the successor test
m_rtBindingFrameId + 1 and the counter increment are uint32_t
arithmetic and wrap modulo 2^32. -/
def setRtBindingFrameId (v : DxvkImageView) (frameId : Nat) : DxvkImageView :=
  if frameId ≠ v.m_rtBindingFrameId then
    if frameId = (v.m_rtBindingFrameId + 1) % U32 then
      { v with m_rtBindingFrameCount := (v.m_rtBindingFrameCount + 1) % U32,
               m_rtBindingFrameId := frameId }
    else
      { v with m_rtBindingFrameCount := 0,
               m_rtBindingFrameId := frameId }
  else
    v

/-- DxvkImageView::getRtBindingAsyncCompilationCompat. -/
def getRtBindingAsyncCompilationCompat (v : DxvkImageView) : Bool :=
  decide (5 ≤ v.m_rtBindingFrameCount)

/-- Folds setRtBindingFrameId over a list of frame ids, used to state
the frame-tracking sequence properties. -/
def applyFrameIds (v : DxvkImageView) (ids : List Nat) : DxvkImageView :=
  ids.foldl setRtBindingFrameId v

end DxvkImageView

/-
Theorems settling the claims, in claim order.
-/

/-- Sample create info used by the witness theorems: a 64 x 16 x 1 image
with 7 mip levels whose common layout is not the general layout. -/
def sampleImageInfo : DxvkImageCreateInfo :=
  { type := 1, format := 37, flags := 0, sampleCount := 1,
    extent := { width := 64, height := 16, depth := 1 },
    numLayers := 4, mipLevels := 7, usage := 0, stages := 0,
    access := 0, tiling := 0, layout := 2 }

/-- Sample image used by the witness theorems. -/
def sampleImage : DxvkImage :=
  { m_info := sampleImageInfo }

/-- Sample image whose common layout is the general layout. -/
def sampleImageGeneral : DxvkImage :=
  { m_info := { sampleImageInfo with layout := VK_IMAGE_LAYOUT_GENERAL } }

/-- Sample view create info used by the witness theorems. -/
def sampleViewInfo : DxvkImageViewCreateInfo :=
  { type := 1, format := 37, usage := 0, aspect := 1,
    minLevel := 2, numLevels := 3, minLayer := 1, numLayers := 2 }

/-- Sample image view used by the witness theorems. -/
def sampleView : DxvkImageView :=
  DxvkImageView.construct () sampleImage sampleViewInfo

/-- Auxiliary: shifting right by more positions gives a result that is
no larger. -/
theorem shiftRight_le_shiftRight_of_le (x : Nat) {a b : Nat} (h : a ≤ b) :
    x >>> b ≤ x >>> a := by
  rw [Nat.shiftRight_eq_div_pow, Nat.shiftRight_eq_div_pow]
  exact Nat.div_le_div_left (Nat.pow_le_pow_right (by norm_num) h)
    (Nat.pos_pow_of_pos a (by norm_num))

/-- C3: mipLevelExtent(level) computes each axis independently as
max(1, baseExtent >> level) for width, height and depth, for every
level >= 0 with no restriction; for all levels up to the declared mip
count every component is at least 1, and the components are
non-increasing as the level increases. -/
theorem mipLevelExtent_spec (img : DxvkImage) :
    (∀ level : Nat, img.mipLevelExtent level =
      { width := max 1 (img.m_info.extent.width >>> level),
        height := max 1 (img.m_info.extent.height >>> level),
        depth := max 1 (img.m_info.extent.depth >>> level) }) ∧
    (∀ level : Nat, level ≤ img.m_info.mipLevels →
      1 ≤ (img.mipLevelExtent level).width ∧
      1 ≤ (img.mipLevelExtent level).height ∧
      1 ≤ (img.mipLevelExtent level).depth) ∧
    (∀ l1 l2 : Nat, l1 ≤ l2 → l2 ≤ img.m_info.mipLevels →
      (img.mipLevelExtent l2).width ≤ (img.mipLevelExtent l1).width ∧
      (img.mipLevelExtent l2).height ≤ (img.mipLevelExtent l1).height ∧
      (img.mipLevelExtent l2).depth ≤ (img.mipLevelExtent l1).depth) := by
  refine ⟨fun level => rfl,
    fun level hl => ⟨Nat.le_max_left _ _, Nat.le_max_left _ _, Nat.le_max_left _ _⟩,
    fun l1 l2 h12 h2 => ⟨?_, ?_, ?_⟩⟩
  all_goals
    exact max_le_max (Nat.le_refl 1) (shiftRight_le_shiftRight_of_le _ h12)

/-- Witness for C3 at the sample image: the formula at level 9, beyond
the declared mip count 7, plus the component bound at level 3 and
monotonicity at levels 1 ≤ 3 ≤ 7. -/
theorem mipLevelExtent_spec_witness :
    sampleImage.mipLevelExtent 9 =
      { width := max 1 (sampleImage.m_info.extent.width >>> 9),
        height := max 1 (sampleImage.m_info.extent.height >>> 9),
        depth := max 1 (sampleImage.m_info.extent.depth >>> 9) } ∧
    1 ≤ (sampleImage.mipLevelExtent 3).width ∧
    (sampleImage.mipLevelExtent 3).width ≤ (sampleImage.mipLevelExtent 1).width :=
  ⟨(mipLevelExtent_spec sampleImage).1 9,
   ((mipLevelExtent_spec sampleImage).2.1 3 (by decide)).1,
   ((mipLevelExtent_spec sampleImage).2.2 1 3 (by decide) (by decide)).1⟩

/-- C4: isFullSubresource(subresource, extent) is true iff the
subresource aspect mask equals the full aspect mask of the image format
and the extent equals mipLevelExtent(subresource.mipLevel), and false
whenever either condition fails. -/
theorem isFullSubresource_spec (reg : FormatRegistry) (img : DxvkImage)
    (subresource : VkImageSubresourceLayers) (extent : VkExtent3D) :
    img.isFullSubresource reg subresource extent = true ↔
      (subresource.aspectMask = (reg img.m_info.format).aspectMask ∧
       extent = img.mipLevelExtent subresource.mipLevel) := by
  simp [DxvkImage.isFullSubresource, DxvkImage.formatInfo]

/-- C5: when the declared common layout of the image is the general
layout, pickLayout returns the general layout for every input;
otherwise it returns its input unchanged, for all inputs. -/
theorem pickLayout_spec (img : DxvkImage) :
    (img.m_info.layout = VK_IMAGE_LAYOUT_GENERAL →
      ∀ layout, img.pickLayout layout = VK_IMAGE_LAYOUT_GENERAL) ∧
    (img.m_info.layout ≠ VK_IMAGE_LAYOUT_GENERAL →
      ∀ layout, img.pickLayout layout = layout) := by
  constructor
  · intro h layout
    simp [DxvkImage.pickLayout, h]
  · intro h layout
    simp [DxvkImage.pickLayout, h]

/-- Witness for C5: a general-layout image maps layout 5 to general, a
non-general-layout image returns layout 5 unchanged. -/
theorem pickLayout_spec_witness :
    sampleImageGeneral.pickLayout 5 = VK_IMAGE_LAYOUT_GENERAL ∧
    sampleImage.pickLayout 5 = 5 :=
  ⟨(pickLayout_spec sampleImageGeneral).1 (by decide) 5,
   (pickLayout_spec sampleImage).2 (by decide) 5⟩

/-- C1: setRtBindingFrameId is a three-case transition on the state
(lastFrameId, consecutiveFrameCount): for every state with uint32_t
fields (hence every reachable state), an equal frame id leaves the
state unchanged; the successor frame id (in uint32_t arithmetic)
increments the counter (as uint32_t) and stores the frame id; any other
frame id resets the counter to 0 and stores the frame id. -/
theorem setRtBindingFrameId_spec (v : DxvkImageView) (frameId : Nat)
    (hid : v.m_rtBindingFrameId < U32)
    (hcount : v.m_rtBindingFrameCount < U32)
    (hframe : frameId < U32) :
    (frameId = v.m_rtBindingFrameId →
      v.setRtBindingFrameId frameId = v) ∧
    (frameId ≠ v.m_rtBindingFrameId →
      frameId = (v.m_rtBindingFrameId + 1) % U32 →
      v.setRtBindingFrameId frameId =
        { v with m_rtBindingFrameCount := (v.m_rtBindingFrameCount + 1) % U32,
                 m_rtBindingFrameId := frameId }) ∧
    (frameId ≠ v.m_rtBindingFrameId →
      frameId ≠ (v.m_rtBindingFrameId + 1) % U32 →
      v.setRtBindingFrameId frameId =
        { v with m_rtBindingFrameCount := 0,
                 m_rtBindingFrameId := frameId }) := by
  refine ⟨fun h => ?_, fun h1 h2 => ?_, fun h1 h2 => ?_⟩
  · unfold DxvkImageView.setRtBindingFrameId
    rw [if_neg (not_not_intro h)]
  · unfold DxvkImageView.setRtBindingFrameId
    rw [if_pos h1, if_pos h2]
  · unfold DxvkImageView.setRtBindingFrameId
    rw [if_pos h1, if_neg h2]

/-- Witness for C1 at the sample view: frame id 1 is the successor of
the fresh frame id 0 and takes the increment branch. -/
theorem setRtBindingFrameId_spec_witness :
    sampleView.setRtBindingFrameId 1 =
      { sampleView with
          m_rtBindingFrameCount := (sampleView.m_rtBindingFrameCount + 1) % U32,
          m_rtBindingFrameId := 1 } :=
  (setRtBindingFrameId_spec sampleView 1 (by decide) (by decide)
    (by decide)).2.1 (by decide) (by decide)

/-- Auxiliary: after any call to setRtBindingFrameId the stored frame
id is the frame id of that call. -/
theorem setRtBindingFrameId_frameId (v : DxvkImageView) (frameId : Nat) :
    (v.setRtBindingFrameId frameId).m_rtBindingFrameId = frameId := by
  unfold DxvkImageView.setRtBindingFrameId
  by_cases h : frameId = v.m_rtBindingFrameId
  · rw [if_neg (not_not_intro h)]
    exact h.symm
  · rw [if_pos h]
    by_cases h2 : frameId = (v.m_rtBindingFrameId + 1) % U32
    · rw [if_pos h2]
    · rw [if_neg h2]

/-- C2: getRtBindingAsyncCompilationCompat is a pure predicate that is
true iff consecutiveFrameCount >= 5; from a freshly constructed view
the frame ids 10, 11, 12, 13, 14, 15 give count 5 after the 6th call
with the predicate becoming true only at that point, the sequence
10, 11, 13 resets the count to 0 at the call with 13, and repeating the
same frame id twice in a row changes nothing the second time. -/
theorem getRtBindingAsyncCompilationCompat_spec :
    (∀ v : DxvkImageView,
      v.getRtBindingAsyncCompilationCompat = true ↔ 5 ≤ v.m_rtBindingFrameCount) ∧
    (∀ (image : DxvkImage) (viewInfo : DxvkImageViewCreateInfo),
      ((DxvkImageView.construct () image viewInfo).applyFrameIds
        [10, 11, 12, 13, 14, 15]).m_rtBindingFrameCount = 5 ∧
      ((DxvkImageView.construct () image viewInfo).applyFrameIds
        [10]).getRtBindingAsyncCompilationCompat = false ∧
      ((DxvkImageView.construct () image viewInfo).applyFrameIds
        [10, 11]).getRtBindingAsyncCompilationCompat = false ∧
      ((DxvkImageView.construct () image viewInfo).applyFrameIds
        [10, 11, 12]).getRtBindingAsyncCompilationCompat = false ∧
      ((DxvkImageView.construct () image viewInfo).applyFrameIds
        [10, 11, 12, 13]).getRtBindingAsyncCompilationCompat = false ∧
      ((DxvkImageView.construct () image viewInfo).applyFrameIds
        [10, 11, 12, 13, 14]).getRtBindingAsyncCompilationCompat = false ∧
      ((DxvkImageView.construct () image viewInfo).applyFrameIds
        [10, 11, 12, 13, 14, 15]).getRtBindingAsyncCompilationCompat = true ∧
      ((DxvkImageView.construct () image viewInfo).applyFrameIds
        [10, 11, 13]).m_rtBindingFrameCount = 0) ∧
    (∀ (v : DxvkImageView) (frameId : Nat),
      (v.setRtBindingFrameId frameId).setRtBindingFrameId frameId =
        v.setRtBindingFrameId frameId) := by
  refine ⟨fun v => by simp [DxvkImageView.getRtBindingAsyncCompilationCompat],
    fun image viewInfo => ⟨rfl, rfl, rfl, rfl, rfl, rfl, rfl, rfl⟩,
    fun v frameId => ?_⟩
  have h := setRtBindingFrameId_frameId v frameId
  conv_lhs => rw [DxvkImageView.setRtBindingFrameId]
  rw [h, if_neg (not_not_intro rfl)]

/-- C6: subresources() is the subresource range built purely from the
stored create-info, and on a freshly constructed view it round-trips
exactly the aspect, mip range and layer range supplied at
construction. -/
theorem subresources_spec :
    (∀ v : DxvkImageView,
      v.subresources =
        { aspectMask := v.m_info.aspect,
          baseMipLevel := v.m_info.minLevel,
          levelCount := v.m_info.numLevels,
          baseArrayLayer := v.m_info.minLayer,
          layerCount := v.m_info.numLayers }) ∧
    (∀ (image : DxvkImage) (viewInfo : DxvkImageViewCreateInfo),
      (DxvkImageView.construct () image viewInfo).subresources =
        { aspectMask := viewInfo.aspect,
          baseMipLevel := viewInfo.minLevel,
          levelCount := viewInfo.numLevels,
          baseArrayLayer := viewInfo.minLayer,
          layerCount := viewInfo.numLayers }) :=
  ⟨fun _ => rfl, fun _ _ => rfl⟩

/-- C7: destroying an image built by wrapping an externally supplied
native handle releases neither the handle nor any memory block, and
teardown effects occur only on an owning image. -/
theorem destroy_wrap_spec :
    (∀ (vkd : Unit) (info : DxvkImageCreateInfo) (image : VkImage),
      (DxvkImage.wrap vkd info image).destroy =
        { destroyedNativeHandle := false, freedMemoryBlock := false }) ∧
    (∀ img : DxvkImage, img.m_owned = false →
      img.destroy =
        { destroyedNativeHandle := false, freedMemoryBlock := false }) ∧
    (∀ img : DxvkImage,
      (img.destroy.destroyedNativeHandle = true → img.m_owned = true) ∧
      (img.destroy.freedMemoryBlock = true → img.m_owned = true)) := by
  refine ⟨fun vkd info image => rfl, fun img h => ?_, fun img => ?_⟩
  · unfold DxvkImage.destroy
    rw [if_neg (by rw [h]; exact Bool.false_ne_true)]
  · constructor <;> intro h <;> by_contra hc <;>
    · unfold DxvkImage.destroy at h
      rw [if_neg hc] at h
      simp at h

/-- Witness for C7: the non-owning branch applied to a wrapped sample
image. -/
theorem destroy_wrap_spec_witness :
    (DxvkImage.wrap () sampleImageInfo 42).destroy =
      { destroyedNativeHandle := false, freedMemoryBlock := false } ∧
    ((DxvkImage.wrap () sampleImageInfo 42).destroy.destroyedNativeHandle = true →
      (DxvkImage.wrap () sampleImageInfo 42).m_owned = true) :=
  ⟨destroy_wrap_spec.2.1 (DxvkImage.wrap () sampleImageInfo 42) rfl,
   (destroy_wrap_spec.2.2 (DxvkImage.wrap () sampleImageInfo 42)).1⟩

/-- C8: the view mipLevelExtent(level) equals the parent image
mipLevelExtent(level + minLevel) whenever that uint32_t sum does not
overflow, and when the base mip level of the view is 0 it equals the
image computation at the same level. -/
theorem view_mipLevelExtent_spec (v : DxvkImageView) (level : Nat)
    (h : level + v.m_info.minLevel < U32) :
    v.mipLevelExtent level =
      v.m_image.mipLevelExtent (level + v.m_info.minLevel) ∧
    (v.m_info.minLevel = 0 →
      v.mipLevelExtent level = v.m_image.mipLevelExtent level) := by
  constructor
  · simp [DxvkImageView.mipLevelExtent, Nat.mod_eq_of_lt h]
  · intro h0
    have h1 : level + v.m_info.minLevel = level := by
      simp [h0]
    simp [DxvkImageView.mipLevelExtent, h1, Nat.mod_eq_of_lt (h1 ▸ h)]

/-- Witness for C8 at the sample view (base mip level 2) and level 1. -/
theorem view_mipLevelExtent_spec_witness :
    sampleView.mipLevelExtent 1 =
      sampleView.m_image.mipLevelExtent (1 + sampleView.m_info.minLevel) :=
  (view_mipLevelExtent_spec sampleView 1 (by decide)).1

/-- C9: a freshly constructed view has lastFrameId 0 and count 0, so a
first call with frame id 0 changes nothing and a first call with frame
id 1 already increments the count to 1 instead of resetting it. -/
theorem fresh_view_frame_state_spec :
    ∀ (image : DxvkImage) (viewInfo : DxvkImageViewCreateInfo),
      (DxvkImageView.construct () image viewInfo).m_rtBindingFrameId = 0 ∧
      (DxvkImageView.construct () image viewInfo).m_rtBindingFrameCount = 0 ∧
      (DxvkImageView.construct () image viewInfo).setRtBindingFrameId 0 =
        DxvkImageView.construct () image viewInfo ∧
      ((DxvkImageView.construct () image viewInfo).setRtBindingFrameId
        1).m_rtBindingFrameCount = 1 ∧
      ((DxvkImageView.construct () image viewInfo).setRtBindingFrameId
        1).m_rtBindingFrameId = 1 :=
  fun _ _ => ⟨rfl, rfl, rfl, rfl, rfl⟩

/-- C10: the successor test is uint32_t arithmetic: in a state with
lastFrameId = 2^32 - 1, a call with frame id 0 takes the increment
branch (the wraparound is treated as consecutive, not as a reset) and
stores frame id 0. -/
theorem wraparound_successor_spec (v : DxvkImageView)
    (hid : v.m_rtBindingFrameId = U32 - 1) :
    (v.setRtBindingFrameId 0).m_rtBindingFrameCount =
      (v.m_rtBindingFrameCount + 1) % U32 ∧
    (v.setRtBindingFrameId 0).m_rtBindingFrameId = 0 := by
  have h1 : (0 : Nat) ≠ v.m_rtBindingFrameId := by
    rw [hid]; decide
  have h2 : (0 : Nat) = (v.m_rtBindingFrameId + 1) % U32 := by
    rw [hid]; decide
  constructor <;>
  · unfold DxvkImageView.setRtBindingFrameId
    rw [if_pos h1, if_pos h2]

/-- Witness for C10 at a sample view whose last frame id is the largest
uint32_t value. -/
theorem wraparound_successor_spec_witness :
    (({ sampleView with m_rtBindingFrameId := U32 - 1
       } : DxvkImageView).setRtBindingFrameId 0).m_rtBindingFrameCount =
      (({ sampleView with m_rtBindingFrameId := U32 - 1
         } : DxvkImageView).m_rtBindingFrameCount + 1) % U32 :=
  (wraparound_successor_spec
    { sampleView with m_rtBindingFrameId := U32 - 1 } rfl).1

end Dxvk
